import Mathlib

/-!
Verification of the ADB file-explorer core (`handler.py`): the directory
listing parser, device discovery, the command-executor process boundary and
the file-operation facade, embedded shallowly.  Python strings are modelled
as `String`/`List Char` (ASCII whitespace and digits; the unicode extras of
Python's `\s`/`\d`/`str.strip` are not modelled), machine-independent
integers as `Int`/`Nat`, and the subprocess boundary as an oracle
`Nat → ProcResult` consumed one outcome per spawned process, together with a
spawn counter and a trace of the argv lists actually spawned.
-/

/-- Whitespace characters of Python's ASCII `\s` class (space, tab, newline,
carriage return, vertical tab, form feed), used by `str.strip`, `str.split()`
and the regex classes `\s`/`\S`. -/
def isPySpace (c : Char) : Bool :=
  c = ' ' || c = '\t' || c = '\n' || c = '\r' || c = '\x0b' || c = '\x0c'

/-- Digit class of the regex `\d` (ASCII). -/
def isPyDigit (c : Char) : Bool :=
  '0' ≤ c && c ≤ '9'

/-- Complement class of the regex `\S`. -/
def isNonSpace (c : Char) : Bool :=
  !isPySpace c

/-- Character class `[-dlcbpsrwxStT]` of the permissions field in the
listing regex of `ADBHandler.list_directory`. -/
def isPermChar (c : Char) : Bool :=
  c = '-' || c = 'd' || c = 'l' || c = 'c' || c = 'b' || c = 'p' || c = 's' ||
  c = 'r' || c = 'w' || c = 'x' || c = 'S' || c = 't' || c = 'T'

/-- Class of the regex `.` (any character except a newline). -/
def isDotChar (c : Char) : Bool :=
  !(c = '\n')

/-- One element of the fixed listing regex, seen as a sequence of atoms:
a greedy one-or-more run of a character class, an exactly-`n` run, or a
literal character. -/
inductive Tok where
  | plus (p : Char → Bool)
  | rep (n : Nat) (p : Char → Bool)
  | lit (c : Char)

/-- Backtracking matcher for a sequence of regex atoms against an entire
string (anchored at both ends, as `re.match` with a final `$` on a line with
no newline).  A greedy `plus` first tries the maximal run satisfying its
class and backtracks one character at a time, which is exactly the
leftmost-greedy search order of Python's `re`.  The fuel argument only
bounds the recursion depth; one atom is consumed per level, so any fuel
larger than the atom count is enough. -/
def runT : Nat → List Tok → List Char → Option (List (List Char))
  | 0, _, _ => none
  | _ + 1, [], s => if s.isEmpty then some [] else none
  | fuel + 1, .plus p :: ts, s =>
      (List.range (s.takeWhile p).length).findSome? (fun i =>
        (runT fuel ts (s.drop ((s.takeWhile p).length - i))).map
          ((s.take ((s.takeWhile p).length - i)) :: ·))
  | fuel + 1, .rep n p :: ts, s =>
      if n ≤ s.length ∧ (s.take n).all p then
        (runT fuel ts (s.drop n)).map ((s.take n) :: ·)
      else none
  | fuel + 1, .lit c :: ts, s =>
      match s with
      | [] => none
      | c' :: rest =>
          if c' = c then (runT fuel ts rest).map (fun r => [c'] :: r) else none

/-- Atom sequence of the listing pattern
`^([-dlcbpsrwxStT]+)\s+\d+\s+\S+\s+\S+\s+(\d+)\s+(\d{4}-\d{2}-\d{2})\s+(\d{2}:\d{2})\s+(.+)$`
compiled in `ADBHandler.list_directory`. -/
def lsToks : List Tok :=
  [.plus isPermChar, .plus isPySpace, .plus isPyDigit, .plus isPySpace,
   .plus isNonSpace, .plus isPySpace, .plus isNonSpace, .plus isPySpace,
   .plus isPyDigit, .plus isPySpace,
   .rep 4 isPyDigit, .lit '-', .rep 2 isPyDigit, .lit '-', .rep 2 isPyDigit,
   .plus isPySpace,
   .rep 2 isPyDigit, .lit ':', .rep 2 isPyDigit,
   .plus isPySpace, .plus isDotChar]

/-- Matching a stripped listing line against the pattern, returning the five
captured groups (permissions, size, date, time, name) on success.  A
successful match always yields exactly one piece per atom, i.e. 21 pieces;
group 1 is piece 0, group 2 piece 8, group 3 pieces 10-14, group 4 pieces
16-18 and group 5 piece 20. -/
def matchLsLine (line : List Char) :
    Option (List Char × List Char × List Char × List Char × List Char) :=
  match runT 22 lsToks line with
  | some [g1, _, _, _, _, _, _, _, g2, _, d1, d2, d3, d4, d5, _, t1, t2, t3, _, g5] =>
      some (g1, g2, d1 ++ d2 ++ d3 ++ d4 ++ d5, t1 ++ t2 ++ t3, g5)
  | _ => none

/-- Python `str.strip()` restricted to the ASCII whitespace set. -/
def pyStrip (s : List Char) : List Char :=
  ((s.dropWhile isPySpace).reverse.dropWhile isPySpace).reverse

/-- Python `path.rstrip("/")`: all trailing slash characters removed. -/
def rstripSlash (s : String) : String :=
  String.mk ((s.data.reverse.dropWhile (fun c => c = '/')).reverse)

/-- Numeric value of a digit string, as Python `int` on the `\d+` capture. -/
def strToNat (s : List Char) : Nat :=
  s.foldl (fun a c => a * 10 + (c.toNat - 48)) 0

/-- Helper of Python `str.split(sep)` for a one-character separator. -/
def splitChAux (sep : Char) : List Char → List Char → List (List Char)
  | [], acc => [acc.reverse]
  | c :: rest, acc =>
      if c = sep then acc.reverse :: splitChAux sep rest []
      else splitChAux sep rest (c :: acc)

/-- Python `str.split(sep)` for a one-character separator: keeps empty
pieces, and the empty string yields one empty piece. -/
def splitCh (sep : Char) (s : List Char) : List (List Char) :=
  splitChAux sep s []

/-- Record of one parsed remote file, the `FileItem` dataclass. -/
structure FileItem where
  name : String
  path : String
  is_dir : Bool
  size : Nat
  permissions : String
  date_modified : String
deriving DecidableEq, Repr

/-- Processing of one line of listing output inside the loop of
`ADBHandler.list_directory`: strip, skip blank and `total` lines, match the
pattern, skip non-matching lines and the `.`/`..` entries, and otherwise
build the `FileItem`. -/
def parseLsLine (basePath : String) (rawLine : List Char) : Option FileItem :=
  let line := pyStrip rawLine
  if line.isEmpty then none
  else if ("total".data).isPrefixOf line then none
  else
    match matchLsLine line with
    | none => none
    | some (perms, size, date, time, name) =>
        if name = ['.'] ∨ name = ['.', '.'] then none
        else some
          { name := String.mk name
            path := rstripSlash basePath ++ "/" ++ String.mk name
            is_dir := (['d']).isPrefixOf perms
            size := strToNat size
            permissions := String.mk perms
            date_modified := String.mk date ++ " " ++ String.mk time }

/-- Pure part of `ADBHandler.list_directory`: split the captured stdout on
newlines (Python `split("\n")`) and run the per-line parser, collecting the
parsed items in order. -/
def parseListing (stdout : String) (basePath : String) : List FileItem :=
  (splitCh '\n' stdout.data).filterMap (parseLsLine basePath)

example : parseListing ("-rw-r--r-- 1 root root 1024 2024-01-15 10:30 notes.txt") ("/sdcard") =
    [{ name := "notes.txt", path := "/sdcard/notes.txt", is_dir := false,
       size := 1024, permissions := "-rw-r--r--",
       date_modified := "2024-01-15 10:30" }] := by decide

example : parseListing ("error") ("/x") = [] := by decide

example : parseListing ("total 12\ndrwxr-xr-x  2 root root 4096 2024-01-15 10:30 Download\n") ("/sdcard/") =
    [{ name := "Download", path := "/sdcard/Download", is_dir := true,
       size := 4096, permissions := "drwxr-xr-x",
       date_modified := "2024-01-15 10:30" }] := by decide

/-- Result record of `subprocess.run`, as used by `_run_adb_command`. -/
structure CompletedProcess where
  returncode : Int
  stdout : String
  stderr : String
deriving DecidableEq, Repr

/-- Outcome of one attempted process spawn: a completed process, a
`subprocess.TimeoutExpired`, or any other spawn exception
(`FileNotFoundError`, `OSError`, ...). -/
inductive ProcResult where
  | ok (r : CompletedProcess)
  | timeout
  | fault
deriving DecidableEq, Repr

/-- Exception escaping `_run_adb_command` into a facade operation's
`try` block. -/
inductive AdbExc where
  | timeout
  | fault
deriving DecidableEq, Repr

/-- Session state of an `ADBHandler`: the bound serial (a Python string or
`None`) and the connected flag derived at construction. -/
structure Session where
  device_serial : Option String
  device_connected : Bool
deriving DecidableEq, Repr

/-- Python truthiness of the `device_serial` attribute: `None` and the empty
string are falsy. -/
def serialTruthy : Option String → Bool
  | none => false
  | some s => !s.data.isEmpty

/-- Argument vector built by `_run_adb_command`: `adb`, then `-s serial`
when a serial is bound (truthy), then the subcommand. -/
def mkArgv (sess : Session) (command : List String) : List String :=
  match sess.device_serial with
  | some s => if s.data.isEmpty then "adb" :: command else "adb" :: "-s" :: s :: command
  | none => "adb" :: command

/-- One call of `_run_adb_command`: spawn the process (consuming outcome
`w n` of the oracle and recording the argv in the trace), return the
completed process, or raise `TimeoutExpired` (re-raised after logging) or
the spawn fault to the caller. -/
def runAdbCmd (sess : Session) (w : Nat → ProcResult) (n : Nat)
    (command : List String) :
    Except AdbExc CompletedProcess × Nat × List (List String) :=
  match w n with
  | .ok r => (.ok r, n + 1, [mkArgv sess command])
  | .timeout => (.error .timeout, n + 1, [mkArgv sess command])
  | .fault => (.error .fault, n + 1, [mkArgv sess command])

/-- Conversion applied by every boolean facade operation: the `try` body
returns `returncode == 0`, and both `except` clauses return `False`. -/
def boolOfProc : Except AdbExc CompletedProcess → Bool
  | .ok r => decide (r.returncode = 0)
  | .error _ => false

/-- Python `str.replace` for a one-character pattern. -/
def replChar (c : Char) (r : List Char) : List Char → List Char
  | [] => []
  | x :: xs => (if x = c then r else [x]) ++ replChar c r xs

/-- Path escaping of `_escape_path`: backslash-escape double and single
quotes, then wrap the whole path in double quotes. -/
def escapePath (path : String) : String :=
  String.mk ('"' :: replChar '\'' ['\\', '\''] (replChar '"' ['\\', '"'] path.data) ++ ['"'])

/-- Facade operation `list_directory`: empty on a disconnected session, on a
non-zero exit status, and on a timeout or spawn fault; otherwise the parsed
listing of the captured stdout. -/
def list_directory (sess : Session) (w : Nat → ProcResult) (n : Nat)
    (path : String) : List FileItem × Nat × List (List String) :=
  if sess.device_connected = false then ([], n, [])
  else
    let (res, n', t) := runAdbCmd sess w n
      ["shell", "ls -la " ++ escapePath path ++ " 2>/dev/null || echo \"error\""]
    match res with
    | .ok r => (if r.returncode = 0 then parseListing r.stdout path else [], n', t)
    | .error _ => ([], n', t)

/-- Shared `try` body of every boolean facade operation: run the command,
return `returncode == 0`, and convert an escaping timeout or spawn fault to
`False` in the `except` clauses. -/
def adbBool (sess : Session) (w : Nat → ProcResult) (n : Nat)
    (command : List String) : Bool × Nat × List (List String) :=
  let (res, n', t) := runAdbCmd sess w n command
  (boolOfProc res, n', t)

/-- Facade operation `pull_file`. -/
def pull_file (sess : Session) (w : Nat → ProcResult) (n : Nat)
    (remotePath localPath : String) : Bool × Nat × List (List String) :=
  if sess.device_connected = false then (false, n, [])
  else adbBool sess w n ["pull", remotePath, localPath]

/-- Facade operation `push_file`. -/
def push_file (sess : Session) (w : Nat → ProcResult) (n : Nat)
    (localPath remotePath : String) : Bool × Nat × List (List String) :=
  if sess.device_connected = false then (false, n, [])
  else adbBool sess w n ["push", localPath, remotePath]

/-- Facade operation `rename_item`. -/
def rename_item (sess : Session) (w : Nat → ProcResult) (n : Nat)
    (oldPath newPath : String) : Bool × Nat × List (List String) :=
  if sess.device_connected = false then (false, n, [])
  else adbBool sess w n
    ["shell", "mv " ++ escapePath oldPath ++ " " ++ escapePath newPath]

/-- Facade operation `delete_item`: recursive remove for a directory,
plain remove otherwise. -/
def delete_item (sess : Session) (w : Nat → ProcResult) (n : Nat)
    (path : String) (is_dir : Bool) : Bool × Nat × List (List String) :=
  if sess.device_connected = false then (false, n, [])
  else adbBool sess w n
    ["shell", if is_dir then "rm -r " ++ escapePath path else "rm " ++ escapePath path]

/-- Facade operation `create_file`. -/
def create_file (sess : Session) (w : Nat → ProcResult) (n : Nat)
    (remotePath : String) : Bool × Nat × List (List String) :=
  if sess.device_connected = false then (false, n, [])
  else adbBool sess w n ["shell", "touch " ++ escapePath remotePath]

/-- Facade operation `create_folder`. -/
def create_folder (sess : Session) (w : Nat → ProcResult) (n : Nat)
    (remotePath : String) : Bool × Nat × List (List String) :=
  if sess.device_connected = false then (false, n, [])
  else adbBool sess w n ["shell", "mkdir -p " ++ escapePath remotePath]

/-- Python `"/".join(pieces)`. -/
def joinSlash : List (List Char) → List Char
  | [] => []
  | [x] => x
  | x :: y :: rest => x ++ '/' :: joinSlash (y :: rest)

/-- Parent-directory computation of `copy_on_device` and `move_on_device`:
`"/".join(dest_path.split("/")[:-1])`. -/
def parentDir (destPath : String) : String :=
  String.mk (joinSlash ((splitCh '/' destPath.data).dropLast))

/-- Facade operation `copy_on_device`: when the computed parent directory is
non-empty, first attempt `create_folder` on it (the boolean result is
discarded), then run the recursive copy and report its exit status. -/
def copy_on_device (sess : Session) (w : Nat → ProcResult) (n : Nat)
    (srcPath destPath : String) : Bool × Nat × List (List String) :=
  if sess.device_connected = false then (false, n, [])
  else
    let mk := if (parentDir destPath).data.isEmpty
      then (false, n, ([] : List (List String)))
      else create_folder sess w n (parentDir destPath)
    let fin := adbBool sess w mk.2.1
      ["shell", "cp -r " ++ escapePath srcPath ++ " " ++ escapePath destPath]
    (fin.1, fin.2.1, mk.2.2 ++ fin.2.2)

/-- Facade operation `move_on_device`: same parent-creation preamble as
`copy_on_device`, then a remote move. -/
def move_on_device (sess : Session) (w : Nat → ProcResult) (n : Nat)
    (srcPath destPath : String) : Bool × Nat × List (List String) :=
  if sess.device_connected = false then (false, n, [])
  else
    let mk := if (parentDir destPath).data.isEmpty
      then (false, n, ([] : List (List String)))
      else create_folder sess w n (parentDir destPath)
    let fin := adbBool sess w mk.2.1
      ["shell", "mv " ++ escapePath srcPath ++ " " ++ escapePath destPath]
    (fin.1, fin.2.1, mk.2.2 ++ fin.2.2)

/-- Helper of Python `str.splitlines` (accumulator holds the current line
reversed); line terminators modelled: `\n`, `\r\n` and `\r`. -/
def pySplitLinesAux : List Char → List Char → List (List Char)
  | [], acc => if acc.isEmpty then [] else [acc.reverse]
  | '\r' :: '\n' :: rest, acc => acc.reverse :: pySplitLinesAux rest []
  | '\r' :: rest, acc => acc.reverse :: pySplitLinesAux rest []
  | '\n' :: rest, acc => acc.reverse :: pySplitLinesAux rest []
  | c :: rest, acc => pySplitLinesAux rest (c :: acc)

/-- Python `str.splitlines`: no trailing empty line for a terminated final
line, and the empty string yields no lines. -/
def pySplitLines (s : List Char) : List (List Char) :=
  pySplitLinesAux s []

/-- Helper of Python `str.split()` with no separator: split on runs of
whitespace, discarding empty pieces. -/
def pySplitAux : List Char → List Char → List (List Char)
  | [], acc => if acc.isEmpty then [] else [acc.reverse]
  | c :: rest, acc =>
      if isPySpace c then
        if acc.isEmpty then pySplitAux rest [] else acc.reverse :: pySplitAux rest []
      else pySplitAux rest (c :: acc)

/-- Python `str.split()` with no separator. -/
def pySplit (s : List Char) : List (List Char) :=
  pySplitAux s []

/-- Python substring containment, `sub in s`. -/
def containsSub (sub : List Char) : List Char → Bool
  | [] => sub.isEmpty
  | x :: xs => if sub.isPrefixOf (x :: xs) then true else containsSub sub xs

/-- Python dict assignment `d[k] = v` on an insertion-ordered dict seen as
an association list: replace in place when the key exists, append
otherwise. -/
def dictInsert (d : List (String × String)) (k v : String) :
    List (String × String) :=
  if d.any (fun p => p.1 == k) then
    d.map (fun p => if p.1 == k then (k, v) else p)
  else d ++ [(k, v)]

/-- Line filter of `get_connected_devices`:
`"device " in line and "devices" not in line` (substring tests). -/
def qualifiesLine (line : List Char) : Bool :=
  containsSub (("device ").data) line && !containsSub (("devices").data) line

/-- Serial extraction of `get_connected_devices`: `line.split()[0]`. -/
def serialOfLine (line : List Char) : String :=
  String.mk ((pySplit line).getD 0 [])

/-- Model extraction of `get_connected_devices`: the text between the first
and second colons of the first whitespace token starting with `model:`,
defaulting to `Unknown`. -/
def modelOfLine (line : List Char) : String :=
  match ((pySplit line).drop 1).find? (fun p => (("model:").data).isPrefixOf p) with
  | some p => String.mk ((splitCh ':' p).getD 1 [])
  | none => "Unknown"

/-- Pure part of `get_connected_devices`: fold over the stdout lines,
inserting serial/model pairs for the qualifying lines. -/
def parseDevicesOutput (stdout : String) : List (String × String) :=
  (pySplitLines stdout.data).foldl
    (fun d line =>
      if qualifiesLine line then dictInsert d (serialOfLine line) (modelOfLine line)
      else d) []

/-- Method `get_connected_devices`: run `adb devices -l`; a non-zero exit
status, a timeout or a spawn fault all yield the empty device mapping. -/
def get_connected_devices (sess : Session) (w : Nat → ProcResult) (n : Nat) :
    List (String × String) × Nat × List (List String) :=
  let (res, n', t) := runAdbCmd sess w n ["devices", "-l"]
  match res with
  | .ok r => (if r.returncode = 0 then parseDevicesOutput r.stdout else [], n', t)
  | .error _ => ([], n', t)

/-- Constructor `ADBHandler.__init__`: store the supplied serial, run device
discovery with it, derive the connected flag, and auto-bind the single
discovered serial when none was supplied (truthiness test) and exactly one
device was found. -/
def initSession (device_serial : Option String) (w : Nat → ProcResult) :
    Session × Nat × List (List String) :=
  let s0 : Session := { device_serial := device_serial, device_connected := false }
  let (devs, n', t) := get_connected_devices s0 w 0
  let connected := !devs.isEmpty
  let serial :=
    if connected && !serialTruthy device_serial && devs.length == 1 then
      some (devs.headD ("", "")).1
    else device_serial
  ({ device_serial := serial, device_connected := connected }, n', t)

example : parseDevicesOutput ("List of devices attached\nABC123  device product:x model:Pixel_5 device:x\n") =
    [("ABC123", "Pixel_5")] := by decide

example : parseDevicesOutput ("List of devices attached\nABC123\tdevice\n") = [] := by decide

/-- Boolean a facade operation derives from one spawn outcome:
`returncode == 0` for a completed process, `False` after the `except`
clauses for a timeout or spawn fault. -/
def okZero : ProcResult → Bool
  | .ok r => decide (r.returncode = 0)
  | .timeout => false
  | .fault => false

theorem adbBool_eq (sess : Session) (w : Nat → ProcResult) (n : Nat)
    (command : List String) :
    adbBool sess w n command = (okZero (w n), n + 1, [mkArgv sess command]) := by
  cases hwn : w n <;> simp [adbBool, runAdbCmd, boolOfProc, okZero, hwn]



/-- Claim C3: with the session's connected flag false, every facade
operation returns failure immediately (`false`, or the empty list for
`list_directory`), leaves the spawn counter unchanged and spawns no
process; in particular `delete_item` with `is_dir = true`. -/
theorem claim3_disconnected_fails_without_spawn (sess : Session)
    (w : Nat → ProcResult) (n : Nat)
    (path remotePath localPath oldPath newPath srcPath destPath : String)
    (is_dir : Bool) (h : sess.device_connected = false) :
    list_directory sess w n path = ([], n, []) ∧
    pull_file sess w n remotePath localPath = (false, n, []) ∧
    push_file sess w n localPath remotePath = (false, n, []) ∧
    rename_item sess w n oldPath newPath = (false, n, []) ∧
    delete_item sess w n path is_dir = (false, n, []) ∧
    create_file sess w n remotePath = (false, n, []) ∧
    create_folder sess w n remotePath = (false, n, []) ∧
    copy_on_device sess w n srcPath destPath = (false, n, []) ∧
    move_on_device sess w n srcPath destPath = (false, n, []) := by
  simp [list_directory, pull_file, push_file, rename_item, delete_item,
        create_file, create_folder, copy_on_device, move_on_device, h]

/-- Witness for C3: a disconnected session at concrete arguments. -/
theorem claim3_witness :
    list_directory ⟨none, false⟩ (fun _ => ProcResult.timeout) 0 ("/sdcard") = ([], 0, []) ∧
    pull_file ⟨none, false⟩ (fun _ => ProcResult.timeout) 0 ("/sdcard/a") ("b") = (false, 0, []) ∧
    push_file ⟨none, false⟩ (fun _ => ProcResult.timeout) 0 ("b") ("/sdcard/a") = (false, 0, []) ∧
    rename_item ⟨none, false⟩ (fun _ => ProcResult.timeout) 0 ("/sdcard/a") ("/sdcard/b") = (false, 0, []) ∧
    delete_item ⟨none, false⟩ (fun _ => ProcResult.timeout) 0 ("/sdcard/d") true = (false, 0, []) ∧
    create_file ⟨none, false⟩ (fun _ => ProcResult.timeout) 0 ("/sdcard/a") = (false, 0, []) ∧
    create_folder ⟨none, false⟩ (fun _ => ProcResult.timeout) 0 ("/sdcard/a") = (false, 0, []) ∧
    copy_on_device ⟨none, false⟩ (fun _ => ProcResult.timeout) 0 ("/sdcard/a") ("/sdcard/b") = (false, 0, []) ∧
    move_on_device ⟨none, false⟩ (fun _ => ProcResult.timeout) 0 ("/sdcard/a") ("/sdcard/b") = (false, 0, []) :=
  claim3_disconnected_fails_without_spawn ⟨none, false⟩ (fun _ => ProcResult.timeout) 0
    ("/sdcard") ("/sdcard/a") ("b") ("/sdcard/a") ("/sdcard/b") ("/sdcard/a") ("/sdcard/b") true rfl

/-- Claim C2: whatever each spawn's outcome is — non-zero exit status,
timeout, or spawn fault — every facade operation and device discovery
returns normally with the failure value (`false`, the empty listing, the
empty device mapping); the exceptional outcomes are converted at the
boundary, never propagated. -/
theorem claim2_failures_converted_at_boundary (sess : Session)
    (w : Nat → ProcResult) (n : Nat)
    (path remotePath localPath oldPath newPath srcPath destPath : String)
    (is_dir : Bool)
    (hw : ∀ k r, w k = ProcResult.ok r → ¬r.returncode = 0) :
    (list_directory sess w n path).1 = [] ∧
    (pull_file sess w n remotePath localPath).1 = false ∧
    (push_file sess w n localPath remotePath).1 = false ∧
    (rename_item sess w n oldPath newPath).1 = false ∧
    (delete_item sess w n path is_dir).1 = false ∧
    (create_file sess w n remotePath).1 = false ∧
    (create_folder sess w n remotePath).1 = false ∧
    (copy_on_device sess w n srcPath destPath).1 = false ∧
    (move_on_device sess w n srcPath destPath).1 = false ∧
    (get_connected_devices sess w n).1 = [] := by
  have hz : ∀ k, okZero (w k) = false := by
    intro k
    cases hwk : w k with
    | ok r => simp [okZero, hw k r hwk]
    | timeout => rfl
    | fault => rfl
  have hld : (list_directory sess w n path).1 = [] := by
    by_cases hc : sess.device_connected = false
    · simp [list_directory, hc]
    · cases hwn : w n with
      | ok r => simp [list_directory, hc, runAdbCmd, hwn, hw n r hwn]
      | timeout => simp [list_directory, hc, runAdbCmd, hwn]
      | fault => simp [list_directory, hc, runAdbCmd, hwn]
  have hgd : (get_connected_devices sess w n).1 = [] := by
    cases hwn : w n with
    | ok r => simp [get_connected_devices, runAdbCmd, hwn, hw n r hwn]
    | timeout => simp [get_connected_devices, runAdbCmd, hwn]
    | fault => simp [get_connected_devices, runAdbCmd, hwn]
  refine ⟨hld, ?_, ?_, ?_, ?_, ?_, ?_, ?_, ?_, hgd⟩ <;>
    by_cases hc : sess.device_connected = false <;>
    simp [pull_file, push_file, rename_item, delete_item, create_file,
          create_folder, copy_on_device, move_on_device, adbBool_eq, hz, hc]

/-- Witness for C2: an oracle that times out every spawn, at concrete
arguments on a connected session. -/
theorem claim2_witness :
    (list_directory ⟨some ("ABC"), true⟩ (fun _ => ProcResult.timeout) 0 ("/sdcard")).1 = [] ∧
    (pull_file ⟨some ("ABC"), true⟩ (fun _ => ProcResult.timeout) 0 ("/sdcard/a") ("b")).1 = false ∧
    (push_file ⟨some ("ABC"), true⟩ (fun _ => ProcResult.timeout) 0 ("b") ("/sdcard/a")).1 = false ∧
    (rename_item ⟨some ("ABC"), true⟩ (fun _ => ProcResult.timeout) 0 ("/sdcard/a") ("/sdcard/b")).1 = false ∧
    (delete_item ⟨some ("ABC"), true⟩ (fun _ => ProcResult.timeout) 0 ("/sdcard/d") true).1 = false ∧
    (create_file ⟨some ("ABC"), true⟩ (fun _ => ProcResult.timeout) 0 ("/sdcard/a")).1 = false ∧
    (create_folder ⟨some ("ABC"), true⟩ (fun _ => ProcResult.timeout) 0 ("/sdcard/a")).1 = false ∧
    (copy_on_device ⟨some ("ABC"), true⟩ (fun _ => ProcResult.timeout) 0 ("/sdcard/a") ("/sdcard/b")).1 = false ∧
    (move_on_device ⟨some ("ABC"), true⟩ (fun _ => ProcResult.timeout) 0 ("/sdcard/a") ("/sdcard/b")).1 = false ∧
    (get_connected_devices ⟨some ("ABC"), true⟩ (fun _ => ProcResult.timeout) 0).1 = [] :=
  claim2_failures_converted_at_boundary ⟨some ("ABC"), true⟩ (fun _ => ProcResult.timeout) 0
    ("/sdcard") ("/sdcard/a") ("b") ("/sdcard/a") ("/sdcard/b") ("/sdcard/a") ("/sdcard/b") true
    (fun k r h => by simp at h)

/-- Claim C10: for a connected session, the boolean returned by
`copy_on_device` and `move_on_device` is exactly the final `cp -r` / `mv`
command's exit-status check, for any outcome of the preliminary
parent-directory creation; the creation is attempted exactly when the
computed parent component of the destination path is non-empty (two spawns
in that case, one otherwise). -/
theorem claim10_copy_move_driven_by_final_command (sess : Session)
    (w : Nat → ProcResult) (n : Nat) (srcPath destPath : String)
    (hc : sess.device_connected = true) :
    ((parentDir destPath).data.isEmpty = false →
      copy_on_device sess w n srcPath destPath =
        (okZero (w (n + 1)), n + 2,
         [mkArgv sess ["shell", "mkdir -p " ++ escapePath (parentDir destPath)],
          mkArgv sess ["shell", "cp -r " ++ escapePath srcPath ++ " " ++ escapePath destPath]]) ∧
      move_on_device sess w n srcPath destPath =
        (okZero (w (n + 1)), n + 2,
         [mkArgv sess ["shell", "mkdir -p " ++ escapePath (parentDir destPath)],
          mkArgv sess ["shell", "mv " ++ escapePath srcPath ++ " " ++ escapePath destPath]])) ∧
    ((parentDir destPath).data.isEmpty = true →
      copy_on_device sess w n srcPath destPath =
        (okZero (w n), n + 1,
         [mkArgv sess ["shell", "cp -r " ++ escapePath srcPath ++ " " ++ escapePath destPath]]) ∧
      move_on_device sess w n srcPath destPath =
        (okZero (w n), n + 1,
         [mkArgv sess ["shell", "mv " ++ escapePath srcPath ++ " " ++ escapePath destPath]])) := by
  constructor <;> intro hp <;>
    simp [copy_on_device, move_on_device, create_folder, adbBool_eq, hc, hp]

/-- Witness for C10: the parent-directory creation fails (exit status 1)
while the final copy succeeds (exit status 0), and `copy_on_device` still
returns `true` after exactly two spawns; a destination without a parent
component spawns only the copy itself. -/
theorem claim10_witness :
    copy_on_device ⟨none, true⟩
      (fun k => if k = 0 then ProcResult.ok ⟨1, "", ""⟩ else ProcResult.ok ⟨0, "", ""⟩)
      0 ("/src/f") ("/a/b") =
      (true, 2, [["adb", "shell", "mkdir -p \"/a\""],
                 ["adb", "shell", "cp -r \"/src/f\" \"/a/b\""]]) ∧
    copy_on_device ⟨none, true⟩
      (fun k => if k = 0 then ProcResult.ok ⟨1, "", ""⟩ else ProcResult.ok ⟨0, "", ""⟩)
      0 ("/src/f") ("b") =
      (false, 1, [["adb", "shell", "cp -r \"/src/f\" \"b\""]]) := by
  constructor
  · exact (((claim10_copy_move_driven_by_final_command ⟨none, true⟩
      (fun k => if k = 0 then ProcResult.ok ⟨1, "", ""⟩ else ProcResult.ok ⟨0, "", ""⟩)
      0 ("/src/f") ("/a/b") rfl).1 (by decide)).1).trans (by decide)
  · exact (((claim10_copy_move_driven_by_final_command ⟨none, true⟩
      (fun k => if k = 0 then ProcResult.ok ⟨1, "", ""⟩ else ProcResult.ok ⟨0, "", ""⟩)
      0 ("/src/f") ("b") rfl).2 (by decide)).1).trans (by decide)

/-- Claim C9: a session constructed without a serial auto-binds the single
discovered device's serial when discovery returns exactly one device, and
keeps no serial bound when discovery returns two or more, in which case
every subsequent argument vector is built without an `-s` selector. -/
theorem claim9_serial_autobind (w : Nat → ProcResult) :
    (∀ r s m, w 0 = ProcResult.ok r → r.returncode = 0 →
      parseDevicesOutput r.stdout = [(s, m)] →
      (initSession none w).1.device_serial = some s ∧
      (initSession none w).1.device_connected = true) ∧
    (∀ r, w 0 = ProcResult.ok r → r.returncode = 0 →
      2 ≤ (parseDevicesOutput r.stdout).length →
      (initSession none w).1.device_serial = none ∧
      ∀ command, mkArgv (initSession none w).1 command = "adb" :: command) := by
  constructor
  · intro r s m h0 hrc hparse
    simp [initSession, get_connected_devices, runAdbCmd, h0, hrc, hparse, serialTruthy]
  · intro r h0 hrc hlen
    have h1 : ((parseDevicesOutput r.stdout).length == 1) = false := by
      simp only [beq_eq_false_iff_ne, ne_eq]
      omega
    have hne : (parseDevicesOutput r.stdout).isEmpty = false := by
      cases hd : parseDevicesOutput r.stdout with
      | nil => rw [hd] at hlen; simp at hlen
      | cons a l => rfl
    have hs : (initSession none w).1.device_serial = none := by
      simp [initSession, get_connected_devices, runAdbCmd, h0, hrc, h1, hne, serialTruthy]
    refine ⟨hs, fun command => ?_⟩
    rw [mkArgv, hs]

/-- Witness for C9: one oracle reporting a single device (the serial is
auto-bound), one reporting two (no serial bound, no `-s` in the argv). -/
theorem claim9_witness :
    ((initSession none (fun _ => ProcResult.ok
        ⟨0, "List of devices attached\nABC123  device model:Pixel_5\n", ""⟩)).1.device_serial
      = some ("ABC123")) ∧
    ((initSession none (fun _ => ProcResult.ok
        ⟨0, "List of devices attached\nA1 device model:M1\nB2 device model:M2\n", ""⟩)).1.device_serial
      = none) ∧
    (mkArgv (initSession none (fun _ => ProcResult.ok
        ⟨0, "List of devices attached\nA1 device model:M1\nB2 device model:M2\n", ""⟩)).1
        ["shell", "ls"] = ["adb", "shell", "ls"]) := by
  refine ⟨?_, ?_, ?_⟩
  · exact ((claim9_serial_autobind _).1 ⟨0, "List of devices attached\nABC123  device model:Pixel_5\n", ""⟩
      ("ABC123") ("Pixel_5") rfl rfl (by decide)).1
  · exact ((claim9_serial_autobind _).2 ⟨0, "List of devices attached\nA1 device model:M1\nB2 device model:M2\n", ""⟩
      rfl rfl (by decide)).1
  · exact ((claim9_serial_autobind _).2 ⟨0, "List of devices attached\nA1 device model:M1\nB2 device model:M2\n", ""⟩
      rfl rfl (by decide)).2 ["shell", "ls"]

theorem parseLsLine_base_eq (b b' : String) (h : rstripSlash b = rstripSlash b')
    (rawLine : List Char) : parseLsLine b rawLine = parseLsLine b' rawLine := by
  simp only [parseLsLine, h]

theorem parseLsLine_path (b : String) (l : List Char) (i : FileItem)
    (h : parseLsLine b l = some i) :
    i.path = rstripSlash b ++ "/" ++ i.name := by
  simp only [parseLsLine] at h
  split at h
  · exact absurd h (by simp)
  · split at h
    · exact absurd h (by simp)
    · split at h
      · exact absurd h (by simp)
      · split at h
        · exact absurd h (by simp)
        · rw [Option.some_inj] at h
          subst h
          rfl

theorem parseLsLine_name_not_dots (b : String) (l : List Char) (i : FileItem)
    (h : parseLsLine b l = some i) :
    ¬i.name = "." ∧ ¬i.name = ".." := by
  simp only [parseLsLine] at h
  split at h
  · exact absurd h (by simp)
  · split at h
    · exact absurd h (by simp)
    · split at h
      · exact absurd h (by simp)
      · rename_i hguard
        split at h
        · exact absurd h (by simp)
        · rename_i hdots
          rw [Option.some_inj] at h
          subst h
          constructor
          · intro he
            have hd := congrArg String.data he
            exact hdots (Or.inl hd)
          · intro he
            have hd := congrArg String.data he
            exact hdots (Or.inr hd)

/-- Claim C6: every parsed entry's path is the base path with trailing
slashes stripped, then a slash, then the entry name; hence two base paths
with the same slash-stripped form give identical path values on every
listing. -/
theorem claim6_path_reconstruction (text b1 b2 base : String)
    (h : rstripSlash b1 = rstripSlash b2) :
    (parseListing text b1).map (fun i => i.path) =
      (parseListing text b2).map (fun i => i.path) ∧
    ∀ i ∈ parseListing text base, i.path = rstripSlash base ++ "/" ++ i.name := by
  constructor
  · have he : parseListing text b1 = parseListing text b2 := by
      unfold parseListing
      congr 1
      funext l
      exact parseLsLine_base_eq b1 b2 h l
    rw [he]
  · intro i hi
    rw [parseListing, List.mem_filterMap] at hi
    obtain ⟨l, _, hl⟩ := hi
    exact parseLsLine_path base l i hl

/-- Witness for C6: the same listing parsed with bases `/a/b/` and `/a/b`,
and the path of the concrete parsed entry. -/
theorem claim6_witness :
    ((parseListing ("-rw-r--r-- 1 root root 7 2024-01-15 10:30 f.txt") ("/a/b/")).map (fun i => i.path) =
      (parseListing ("-rw-r--r-- 1 root root 7 2024-01-15 10:30 f.txt") ("/a/b")).map (fun i => i.path)) ∧
    (FileItem.mk ("f.txt") ("/a/b/f.txt") false 7 ("-rw-r--r--") ("2024-01-15 10:30")).path =
      rstripSlash ("/a/b/") ++ "/" ++ (FileItem.mk ("f.txt") ("/a/b/f.txt") false 7 ("-rw-r--r--") ("2024-01-15 10:30")).name :=
  ⟨(claim6_path_reconstruction ("-rw-r--r-- 1 root root 7 2024-01-15 10:30 f.txt")
      ("/a/b/") ("/a/b") ("/a/b/") (by decide)).1,
   (claim6_path_reconstruction ("-rw-r--r-- 1 root root 7 2024-01-15 10:30 f.txt")
      ("/a/b/") ("/a/b") ("/a/b/") (by decide)).2
     (FileItem.mk ("f.txt") ("/a/b/f.txt") false 7 ("-rw-r--r--") ("2024-01-15 10:30")) (by decide)⟩

/-- Counterexample for C8: a symlink listing line parses to an entry whose
name keeps the ` -> target` annotation and therefore contains the path
separator `/`. -/
theorem claim8_counterexample :
    (parseListing ("lrwxrwxrwx 1 root root 21 2024-01-15 10:30 sdcard -> /storage/self/primary") ("/")).map (fun i => i.name) =
      ["sdcard -> /storage/self/primary"] ∧
    '/' ∈ ("sdcard -> /storage/self/primary").data := by
  exact ⟨by decide, by decide⟩

/-- Claim C8 as amended: every entry produced by the listing parser has a
name different from `.` and `..`; names are otherwise unconstrained and may
contain path separators (a symlink line keeps its ` -> target` text). -/
theorem claim8_amended_no_dot_entries (text base : String) :
    ∀ i ∈ parseListing text base, ¬i.name = "." ∧ ¬i.name = ".." := by
  intro i hi
  rw [parseListing, List.mem_filterMap] at hi
  obtain ⟨l, _, hl⟩ := hi
  exact parseLsLine_name_not_dots base l i hl

/-- Witness for C8: the concrete entry produced from a listing whose lines
include `.` and `..` is named neither `.` nor `..`. -/
theorem claim8_witness :
    ¬(FileItem.mk ("f.txt") ("/x/f.txt") false 7 ("-rw-r--r--") ("2024-01-15 10:30")).name = "." ∧
    ¬(FileItem.mk ("f.txt") ("/x/f.txt") false 7 ("-rw-r--r--") ("2024-01-15 10:30")).name = ".." :=
  claim8_amended_no_dot_entries
    ("drwxr-xr-x 2 root root 4096 2024-01-15 10:30 .\ndrwxr-xr-x 2 root root 4096 2024-01-15 10:30 ..\n-rw-r--r-- 1 root root 7 2024-01-15 10:30 f.txt") ("/x")
    (FileItem.mk ("f.txt") ("/x/f.txt") false 7 ("-rw-r--r--") ("2024-01-15 10:30")) (by decide)

/-- Counterexample for C5: a listing text containing the sentinel `error`
on its own line parses to a non-empty sequence when another line matches
the pattern, so the claim's universal quantification over all texts
containing the sentinel fails. -/
theorem claim5_counterexample :
    parseListing ("error\n-rw-r--r-- 1 root root 4 2024-01-15 10:30 a.txt") ("/x") =
      [{ name := "a.txt", path := "/x/a.txt", is_dir := false, size := 4,
         permissions := "-rw-r--r--", date_modified := "2024-01-15 10:30" }] := by
  decide

/-- Claim C5 as amended: non-matching lines are skipped rather than
aborting the parse — the sentinel line `error` never matches, so the
fallback output consisting of the sentinel alone parses to the empty
sequence, and more generally any text all of whose lines fail the per-line
parser parses to the empty sequence. -/
theorem claim5_amended_sentinel_skipped :
    (∀ base : String, parseListing ("error") base = [] ∧ parseListing ("error\n") base = []) ∧
    (∀ text base : String,
      (∀ l ∈ splitCh '\n' text.data, parseLsLine base l = none) →
      parseListing text base = []) := by
  constructor
  · intro base
    exact ⟨rfl, rfl⟩
  · intro text base hall
    rw [parseListing]
    exact List.filterMap_eq_nil_iff.mpr hall

/-- Witness for C5: a text of the sentinel plus a garbage line parses to
the empty sequence. -/
theorem claim5_witness :
    parseListing ("error\nsome garbage line") ("/x") = [] :=
  claim5_amended_sentinel_skipped.2 ("error\nsome garbage line") ("/x") (by decide)

/-- Device mapping described by the amended discovery claim: exactly the
lines containing the substring `device ` (trailing space included) and not
containing the substring `devices` anywhere contribute; each contributing
line maps its first whitespace-delimited token to the text between the
first and second colons of its first `model:` token, defaulting to
`Unknown`, with a later line overwriting an earlier one of equal serial. -/
def devicesDescribed (stdout : String) : List (String × String) :=
  (((pySplitLines stdout.data).filter qualifiesLine).map
      (fun l => (serialOfLine l, modelOfLine l))).foldl
    (fun d p => dictInsert d p.1 p.2) []

theorem foldl_devices_filter_map (lines : List (List Char))
    (d : List (String × String)) :
    lines.foldl (fun d line =>
        if qualifiesLine line then dictInsert d (serialOfLine line) (modelOfLine line)
        else d) d =
      ((lines.filter qualifiesLine).map (fun l => (serialOfLine l, modelOfLine l))).foldl
        (fun d p => dictInsert d p.1 p.2) d := by
  induction lines generalizing d with
  | nil => rfl
  | cons x xs ih => by_cases hx : qualifiesLine x <;> simp [hx, ih]

/-- Counterexample for C4: the line `ABC123<tab>device` contains the
whitespace-delimited token `device` and is not a header line (it does not
even contain the substring `devices`), so the claim predicts the entry
`ABC123 -> Unknown`; the code tests for the substring `device ` with a
trailing space and returns the empty mapping. -/
theorem claim4_counterexample :
    ((pySplit (("ABC123\tdevice").data)).map String.mk).contains ("device") = true ∧
    ((pySplit (("ABC123\tdevice").data)).map String.mk).contains ("devices") = false ∧
    parseDevicesOutput ("List of devices attached\nABC123\tdevice\n") = [] := by
  exact ⟨by decide, by decide, by decide⟩

/-- Claim C4 as amended: the device mapping is built from exactly those
output lines containing the substring `device ` and not containing the
substring `devices`, each mapping its first whitespace token to its first
`model:` token's value (default `Unknown`); the scenario output yields
exactly `ABC123 -> Pixel_5`. -/
theorem claim4_amended_device_line_selection :
    (∀ raw : String, parseDevicesOutput raw = devicesDescribed raw) ∧
    parseDevicesOutput ("List of devices attached\nABC123  device product:x model:Pixel_5 device:x\n") =
      [("ABC123", "Pixel_5")] := by
  constructor
  · intro raw
    unfold parseDevicesOutput devicesDescribed
    exact foldl_devices_filter_map (pySplitLines raw.data) []
  · decide

theorem space_cases (c : Char) (h : isPySpace c = true) :
    c = ' ' ∨ c = '\t' ∨ c = '\n' ∨ c = '\r' ∨ c = '\x0b' ∨ c = '\x0c' := by
  simp only [isPySpace, Bool.or_eq_true, decide_eq_true_eq] at h
  tauto

theorem perm_cases (c : Char) (h : isPermChar c = true) :
    c = '-' ∨ c = 'd' ∨ c = 'l' ∨ c = 'c' ∨ c = 'b' ∨ c = 'p' ∨ c = 's' ∨
    c = 'r' ∨ c = 'w' ∨ c = 'x' ∨ c = 'S' ∨ c = 't' ∨ c = 'T' := by
  simp only [isPermChar, Bool.or_eq_true, decide_eq_true_eq] at h
  tauto

theorem space_not_digit (c : Char) (h : isPySpace c = true) : isPyDigit c = false := by
  rcases space_cases c h with h' | h' | h' | h' | h' | h' <;> subst h' <;> decide

theorem space_not_perm (c : Char) (h : isPySpace c = true) : isPermChar c = false := by
  rcases space_cases c h with h' | h' | h' | h' | h' | h' <;> subst h' <;> decide

theorem space_ne_o (c : Char) (h : isPySpace c = true) : ('o' == c) = false := by
  rcases space_cases c h with h' | h' | h' | h' | h' | h' <;> subst h' <;> decide

theorem perm_not_space (c : Char) (h : isPermChar c = true) : isPySpace c = false := by
  rcases perm_cases c h with h' | h' | h' | h' | h' | h' | h' | h' | h' | h' | h' | h' | h' <;>
    subst h' <;> decide

theorem perm_ne_o (c : Char) (h : isPermChar c = true) : ('o' == c) = false := by
  rcases perm_cases c h with h' | h' | h' | h' | h' | h' | h' | h' | h' | h' | h' | h' | h' <;>
    subst h' <;> decide

theorem digit_not_space (c : Char) (h : isPyDigit c = true) : isPySpace c = false := by
  by_cases hs : isPySpace c = true
  · rw [space_not_digit c hs] at h
    exact absurd h (by simp)
  · exact Bool.not_eq_true _ ▸ Bool.of_not_eq_true hs

theorem nonspace_not_space (c : Char) (h : isNonSpace c = true) : isPySpace c = false := by
  simpa [isNonSpace] using h

theorem space_not_nonspace (c : Char) (h : isPySpace c = true) : isNonSpace c = false := by
  simp [isNonSpace, h]

theorem takeWhile_append_all (p : Char → Bool) (a b : List Char)
    (hap : ∀ c ∈ a, p c = true) (hb : ∀ c, b.head? = some c → p c = false) :
    (a ++ b).takeWhile p = a := by
  induction a with
  | nil =>
      simp only [List.nil_append]
      cases b with
      | nil => rfl
      | cons c cs => simp [List.takeWhile_cons, hb c rfl]
  | cons x xs ih =>
      have hx : p x = true := hap x (by simp)
      simp only [List.cons_append, List.takeWhile_cons, hx, if_true]
      rw [ih (fun c hc => hap c (by simp [hc]))]

theorem dropWhile_head_fail (p : Char → Bool) (l : List Char)
    (h : ∀ c, l.head? = some c → p c = false) : l.dropWhile p = l := by
  cases l with
  | nil => rfl
  | cons x xs => simp [List.dropWhile_cons, h x rfl]

theorem head_append_ne (a b : List Char) (ha : a ≠ []) :
    (a ++ b).head? = a.head? := by
  cases a with
  | nil => exact absurd rfl ha
  | cons x xs => rfl

theorem getLast_append_ne (a b : List Char) (hb : b ≠ []) :
    (a ++ b).getLast? = b.getLast? := by
  rw [← List.head?_reverse, ← List.head?_reverse, List.reverse_append]
  cases hrb : b.reverse with
  | nil => exact absurd (by simpa using hrb) hb
  | cons x xs => simp [hrb]

theorem app_ne_nil (a b : List Char) (hb : b ≠ []) : a ++ b ≠ [] := by
  intro h
  exact hb (List.append_eq_nil.mp h).2

theorem pyStrip_eq_self (l : List Char)
    (h1 : ∀ c, l.head? = some c → isPySpace c = false)
    (h2 : ∀ c, l.getLast? = some c → isPySpace c = false) :
    pyStrip l = l := by
  unfold pyStrip
  rw [dropWhile_head_fail isPySpace l h1]
  rw [dropWhile_head_fail isPySpace l.reverse (by rw [List.head?_reverse]; exact h2)]
  exact List.reverse_reverse l

theorem runT_plus_step (fuel : Nat) (p : Char → Bool) (ts : List Tok)
    (a b : List Char) (r : List (List Char))
    (ha : a ≠ []) (hap : ∀ c ∈ a, p c = true)
    (hb : ∀ c, b.head? = some c → p c = false)
    (hrest : runT fuel ts b = some r) :
    runT (fuel + 1) (.plus p :: ts) (a ++ b) = some (a :: r) := by
  have htw : (a ++ b).takeWhile p = a := takeWhile_append_all p a b hap hb
  obtain ⟨x, xs, rfl⟩ := List.exists_cons_of_ne_nil ha
  have hlen : (x :: xs).length = xs.length + 1 := rfl
  have hdrop : ((x :: xs) ++ b).drop (xs.length + 1) = b := by
    rw [← hlen, List.drop_left]
  have htake : ((x :: xs) ++ b).take (xs.length + 1) = x :: xs := by
    rw [← hlen, List.take_left]
  simp only [runT, htw, hlen, List.range_succ_eq_map, List.findSome?, Nat.sub_zero,
    hdrop, htake, hrest, Option.map_some']

theorem runT_rep_step (fuel : Nat) (n : Nat) (p : Char → Bool) (ts : List Tok)
    (a b : List Char) (r : List (List Char))
    (ha : a.length = n) (hap : a.all p = true)
    (hrest : runT fuel ts b = some r) :
    runT (fuel + 1) (.rep n p :: ts) (a ++ b) = some (a :: r) := by
  subst ha
  have htake : (a ++ b).take a.length = a := List.take_left a b
  have hdrop : (a ++ b).drop a.length = b := List.drop_left a b
  simp only [runT, htake, hdrop, hap, hrest, List.length_append, Nat.le_add_right,
    and_self, if_true, Option.map_some', and_true, true_and, if_pos]

theorem runT_lit_step (fuel : Nat) (c : Char) (ts : List Tok)
    (b : List Char) (r : List (List Char))
    (hrest : runT fuel ts b = some r) :
    runT (fuel + 1) (.lit c :: ts) (c :: b) = some ([c] :: r) := by
  simp [runT, hrest]

theorem runT_nil_step (fuel : Nat) : runT (fuel + 1) [] [] = some [] := by
  simp [runT]

theorem head_all (p : Char → Bool) (l : List Char) (hall : ∀ c ∈ l, p c = true) :
    ∀ c, l.head? = some c → p c = true := by
  intro c hc
  cases l with
  | nil => simp at hc
  | cons a t =>
      simp only [List.head?_cons, Option.some_inj] at hc
      subst hc
      exact hall a (by simp)

/-- Well-formed long-format listing line, assembled from its fields: a
permissions run, whitespace, a link count, whitespace, an owner token,
whitespace, a group token, whitespace, a size, whitespace, a `YYYY-MM-DD`
date, whitespace, an `HH:MM` time, whitespace, and the name as the
remainder. -/
def wfLine (pc : Char)
    (pcs sp1 lk sp2 ow sp3 gr sp4 sz sp5 y mo dd sp6 hh mi sp7 nm : List Char) :
    List Char :=
  (pc :: pcs) ++ (sp1 ++ (lk ++ (sp2 ++ (ow ++ (sp3 ++ (gr ++ (sp4 ++ (sz ++ (sp5 ++ (y ++ ('-' :: (mo ++ ('-' :: (dd ++ (sp6 ++ (hh ++ (':' :: (mi ++ (sp7 ++ nm)))))))))))))))))))

theorem app_ne_nil_left (a b : List Char) (ha : a ≠ []) : a ++ b ≠ [] := by
  intro h
  exact ha (List.append_eq_nil.mp h).1

/-- Characterization of the per-line parser on a well-formed long-format
listing line whose name is neither `.` nor `..`: it produces exactly the
entry with the captured fields, `is_dir` being true exactly when the first
permissions character is `d`. -/
theorem parseLsLine_wellformed (base : String) (pc : Char)
    (pcs sp1 lk sp2 ow sp3 gr sp4 sz sp5 y mo dd sp6 hh mi sp7 nm : List Char)
    (hperm : ∀ c ∈ pc :: pcs, isPermChar c = true)
    (hsp1 : sp1 ≠ []) (hsp1s : ∀ c ∈ sp1, isPySpace c = true)
    (hlk : lk ≠ []) (hlkd : ∀ c ∈ lk, isPyDigit c = true)
    (hsp2 : sp2 ≠ []) (hsp2s : ∀ c ∈ sp2, isPySpace c = true)
    (how : ow ≠ []) (hows : ∀ c ∈ ow, isNonSpace c = true)
    (hsp3 : sp3 ≠ []) (hsp3s : ∀ c ∈ sp3, isPySpace c = true)
    (hgr : gr ≠ []) (hgrs : ∀ c ∈ gr, isNonSpace c = true)
    (hsp4 : sp4 ≠ []) (hsp4s : ∀ c ∈ sp4, isPySpace c = true)
    (hsz : sz ≠ []) (hszd : ∀ c ∈ sz, isPyDigit c = true)
    (hsp5 : sp5 ≠ []) (hsp5s : ∀ c ∈ sp5, isPySpace c = true)
    (hy : y.length = 4) (hyd : ∀ c ∈ y, isPyDigit c = true)
    (hmo : mo.length = 2) (hmod : ∀ c ∈ mo, isPyDigit c = true)
    (hdd : dd.length = 2) (hddd : ∀ c ∈ dd, isPyDigit c = true)
    (hsp6 : sp6 ≠ []) (hsp6s : ∀ c ∈ sp6, isPySpace c = true)
    (hhh : hh.length = 2) (hhhd : ∀ c ∈ hh, isPyDigit c = true)
    (hmi : mi.length = 2) (hmid : ∀ c ∈ mi, isPyDigit c = true)
    (hsp7 : sp7 ≠ []) (hsp7s : ∀ c ∈ sp7, isPySpace c = true)
    (hnm : nm ≠ []) (hnmnl : ∀ c ∈ nm, ¬c = '\n')
    (hnmhead : ∀ c, nm.head? = some c → isPySpace c = false)
    (hnmlast : ∀ c, nm.getLast? = some c → isPySpace c = false)
    (hdots : ¬(nm = ['.'] ∨ nm = ['.', '.'])) :
    parseLsLine base (wfLine pc pcs sp1 lk sp2 ow sp3 gr sp4 sz sp5 y mo dd sp6 hh mi sp7 nm) =
      some { name := String.mk nm,
             path := rstripSlash base ++ "/" ++ String.mk nm,
             is_dir := decide (pc = 'd'),
             size := strToNat sz,
             permissions := String.mk (pc :: pcs),
             date_modified := String.mk (y ++ ['-'] ++ mo ++ ['-'] ++ dd) ++ " " ++
               String.mk (hh ++ [':'] ++ mi) } := by
  have hhne : hh ≠ [] := by intro h0; rw [h0] at hhh; simp at hhh
  have hyne : y ≠ [] := by intro h0; rw [h0] at hy; simp at hy
  have hmone : mo ≠ [] := by intro h0; rw [h0] at hmo; simp at hmo
  have hddne : dd ≠ [] := by intro h0; rw [h0] at hdd; simp at hdd
  have hmine : mi ≠ [] := by intro h0; rw [h0] at hmi; simp at hmi
  have e1 : runT 2 [.plus isDotChar] nm = some [nm] := by
    have h := runT_plus_step 1 isDotChar [] nm [] [] hnm
      (fun c hc => by simp [isDotChar, hnmnl c hc])
      (fun c hc => by simp at hc) (runT_nil_step 0)
    rwa [List.append_nil] at h
  have e2 := runT_plus_step 2 isPySpace _ sp7 _ _ hsp7 hsp7s hnmhead e1
  have e3 := runT_rep_step 3 2 isPyDigit _ mi _ _ hmi (List.all_eq_true.mpr hmid) e2
  have e4 := runT_lit_step 4 ':' _ _ _ e3
  have e5 := runT_rep_step 5 2 isPyDigit _ hh _ _ hhh (List.all_eq_true.mpr hhhd) e4
  have e6 := runT_plus_step 6 isPySpace _ sp6 _ _ hsp6 hsp6s
    (fun c hc => by
      rw [head_append_ne hh _ hhne] at hc
      exact digit_not_space c (head_all isPyDigit hh hhhd c hc)) e5
  have e7 := runT_rep_step 7 2 isPyDigit _ dd _ _ hdd (List.all_eq_true.mpr hddd) e6
  have e8 := runT_lit_step 8 '-' _ _ _ e7
  have e9 := runT_rep_step 9 2 isPyDigit _ mo _ _ hmo (List.all_eq_true.mpr hmod) e8
  have e10 := runT_lit_step 10 '-' _ _ _ e9
  have e11 := runT_rep_step 11 4 isPyDigit _ y _ _ hy (List.all_eq_true.mpr hyd) e10
  have e12 := runT_plus_step 12 isPySpace _ sp5 _ _ hsp5 hsp5s
    (fun c hc => by
      rw [head_append_ne y _ hyne] at hc
      exact digit_not_space c (head_all isPyDigit y hyd c hc)) e11
  have e13 := runT_plus_step 13 isPyDigit _ sz _ _ hsz hszd
    (fun c hc => by
      rw [head_append_ne sp5 _ hsp5] at hc
      exact space_not_digit c (head_all isPySpace sp5 hsp5s c hc)) e12
  have e14 := runT_plus_step 14 isPySpace _ sp4 _ _ hsp4 hsp4s
    (fun c hc => by
      rw [head_append_ne sz _ hsz] at hc
      exact digit_not_space c (head_all isPyDigit sz hszd c hc)) e13
  have e15 := runT_plus_step 15 isNonSpace _ gr _ _ hgr hgrs
    (fun c hc => by
      rw [head_append_ne sp4 _ hsp4] at hc
      exact space_not_nonspace c (head_all isPySpace sp4 hsp4s c hc)) e14
  have e16 := runT_plus_step 16 isPySpace _ sp3 _ _ hsp3 hsp3s
    (fun c hc => by
      rw [head_append_ne gr _ hgr] at hc
      exact nonspace_not_space c (head_all isNonSpace gr hgrs c hc)) e15
  have e17 := runT_plus_step 17 isNonSpace _ ow _ _ how hows
    (fun c hc => by
      rw [head_append_ne sp3 _ hsp3] at hc
      exact space_not_nonspace c (head_all isPySpace sp3 hsp3s c hc)) e16
  have e18 := runT_plus_step 18 isPySpace _ sp2 _ _ hsp2 hsp2s
    (fun c hc => by
      rw [head_append_ne ow _ how] at hc
      exact nonspace_not_space c (head_all isNonSpace ow hows c hc)) e17
  have e19 := runT_plus_step 19 isPyDigit _ lk _ _ hlk hlkd
    (fun c hc => by
      rw [head_append_ne sp2 _ hsp2] at hc
      exact space_not_digit c (head_all isPySpace sp2 hsp2s c hc)) e18
  have e20 := runT_plus_step 20 isPySpace _ sp1 _ _ hsp1 hsp1s
    (fun c hc => by
      rw [head_append_ne lk _ hlk] at hc
      exact digit_not_space c (head_all isPyDigit lk hlkd c hc)) e19
  have hrun := runT_plus_step 21 isPermChar _ (pc :: pcs) _ _ (by simp) hperm
    (fun c hc => by
      rw [head_append_ne sp1 _ hsp1] at hc
      exact space_not_perm c (head_all isPySpace sp1 hsp1s c hc)) e20
  have hmatch : matchLsLine (wfLine pc pcs sp1 lk sp2 ow sp3 gr sp4 sz sp5 y mo dd sp6 hh mi sp7 nm) =
      some (pc :: pcs, sz, y ++ ['-'] ++ mo ++ ['-'] ++ dd, hh ++ [':'] ++ mi, nm) := by
    unfold matchLsLine lsToks wfLine
    rw [hrun]
  have hhead : ∀ c, (wfLine pc pcs sp1 lk sp2 ow sp3 gr sp4 sz sp5 y mo dd sp6 hh mi sp7 nm).head? = some c →
      isPySpace c = false := by
    intro c hc
    unfold wfLine at hc
    rw [head_append_ne _ _ (by simp)] at hc
    simp only [List.head?_cons, Option.some_inj] at hc
    subst hc
    exact perm_not_space _ (hperm _ (by simp))
  have hlast : (wfLine pc pcs sp1 lk sp2 ow sp3 gr sp4 sz sp5 y mo dd sp6 hh mi sp7 nm).getLast? = nm.getLast? := by
    unfold wfLine
    rw [getLast_append_ne _ _ (app_ne_nil_left _ _ hsp1)]
    rw [getLast_append_ne _ _ (app_ne_nil_left _ _ hlk)]
    rw [getLast_append_ne _ _ (app_ne_nil_left _ _ hsp2)]
    rw [getLast_append_ne _ _ (app_ne_nil_left _ _ how)]
    rw [getLast_append_ne _ _ (app_ne_nil_left _ _ hsp3)]
    rw [getLast_append_ne _ _ (app_ne_nil_left _ _ hgr)]
    rw [getLast_append_ne _ _ (app_ne_nil_left _ _ hsp4)]
    rw [getLast_append_ne _ _ (app_ne_nil_left _ _ hsz)]
    rw [getLast_append_ne _ _ (app_ne_nil_left _ _ hsp5)]
    rw [getLast_append_ne _ _ (app_ne_nil_left _ _ hyne)]
    rw [getLast_append_ne _ _ (by simp)]
    have hc1 : ('-' :: (mo ++ ('-' :: (dd ++ (sp6 ++ (hh ++ (':' :: (mi ++ (sp7 ++ nm))))))))).getLast? =
        (mo ++ ('-' :: (dd ++ (sp6 ++ (hh ++ (':' :: (mi ++ (sp7 ++ nm)))))))).getLast? :=
      getLast_append_ne ['-'] _ (app_ne_nil_left _ _ hmone)
    rw [hc1]
    rw [getLast_append_ne _ _ (by simp)]
    have hc2 : ('-' :: (dd ++ (sp6 ++ (hh ++ (':' :: (mi ++ (sp7 ++ nm))))))).getLast? =
        (dd ++ (sp6 ++ (hh ++ (':' :: (mi ++ (sp7 ++ nm)))))).getLast? :=
      getLast_append_ne ['-'] _ (app_ne_nil_left _ _ hddne)
    rw [hc2]
    rw [getLast_append_ne _ _ (app_ne_nil_left _ _ hsp6)]
    rw [getLast_append_ne _ _ (app_ne_nil_left _ _ hhne)]
    rw [getLast_append_ne _ _ (by simp)]
    have hc3 : (':' :: (mi ++ (sp7 ++ nm))).getLast? = (mi ++ (sp7 ++ nm)).getLast? :=
      getLast_append_ne [':'] _ (app_ne_nil_left _ _ hmine)
    rw [hc3]
    rw [getLast_append_ne _ _ (app_ne_nil_left _ _ hsp7)]
    rw [getLast_append_ne _ _ hnm]
  have hstrip : pyStrip (wfLine pc pcs sp1 lk sp2 ow sp3 gr sp4 sz sp5 y mo dd sp6 hh mi sp7 nm) =
      wfLine pc pcs sp1 lk sp2 ow sp3 gr sp4 sz sp5 y mo dd sp6 hh mi sp7 nm :=
    pyStrip_eq_self _ hhead (fun c hc => hnmlast c (by rw [hlast] at hc; exact hc))
  have hempty : (wfLine pc pcs sp1 lk sp2 ow sp3 gr sp4 sz sp5 y mo dd sp6 hh mi sp7 nm).isEmpty = false := by
    unfold wfLine
    simp
  have hnt : (("total").data).isPrefixOf (wfLine pc pcs sp1 lk sp2 ow sp3 gr sp4 sz sp5 y mo dd sp6 hh mi sp7 nm) = false := by
    have htd : ("total").data = ['t', 'o', 't', 'a', 'l'] := rfl
    rw [htd]
    unfold wfLine
    cases pcs with
    | nil =>
        obtain ⟨q, qs, hq⟩ := List.exists_cons_of_ne_nil hsp1
        have hqs : isPySpace q = true := hsp1s q (by rw [hq]; simp)
        rw [hq]
        simp [List.isPrefixOf, space_ne_o q hqs]
    | cons d ds =>
        have hd : isPermChar d = true := hperm d (by simp)
        simp [List.isPrefixOf, perm_ne_o d hd]
  have hdir : (['d']).isPrefixOf (pc :: pcs) = decide (pc = 'd') := by
    have h1 : (['d']).isPrefixOf (pc :: pcs) = ('d' == pc) := by
      simp [List.isPrefixOf]
    rw [h1]
    by_cases h : pc = 'd'
    · subst h
      simp
    · have hne : ('d' == pc) = false := beq_false_of_ne (Ne.symm h)
      rw [hne, decide_eq_false h]
  simp only [parseLsLine, hstrip, hempty, hnt, Bool.false_eq_true, if_false, hmatch, hdir]
  rw [if_neg hdots]

theorem head_fail (p : Char → Bool) (l : List Char) (x : Char)
    (hl : l.head? = some x) (hx : p x = false) :
    ∀ c, l.head? = some c → p c = false := by
  intro c hc
  rw [hl] at hc
  simp only [Option.some_inj] at hc
  subst hc
  exact hx

theorem last_fail (p : Char → Bool) (l : List Char) (x : Char)
    (hl : l.getLast? = some x) (hx : p x = false) :
    ∀ c, l.getLast? = some c → p c = false := by
  intro c hc
  rw [hl] at hc
  simp only [Option.some_inj] at hc
  subst hc
  exact hx

/-- Counterexample for C1: the line for the `.` entry is well-formed by the
claim's definition (it matches the listing pattern), yet the parser
produces zero entries for it, not one. -/
theorem claim1_counterexample :
    matchLsLine (("drwxrwxrwx 2 root root 4096 2024-01-15 10:30 .").data) ≠ none ∧
    parseListing ("drwxrwxrwx 2 root root 4096 2024-01-15 10:30 .") ("/x") = [] := by
  exact ⟨by decide, by decide⟩

/-- Claim C1 as amended: every well-formed long-format listing line whose
name field is neither `.` nor `..` produces exactly one entry whose
permissions, size and name equal the captured fields, whose
`date_modified` is the date, one space, and the time, and whose `is_dir`
is true exactly when the first permissions character is `d`. -/
theorem claim1_wellformed_line_parses (base : String) (pc : Char)
    (pcs sp1 lk sp2 ow sp3 gr sp4 sz sp5 y mo dd sp6 hh mi sp7 nm : List Char)
    (hperm : ∀ c ∈ pc :: pcs, isPermChar c = true)
    (hsp1 : sp1 ≠ []) (hsp1s : ∀ c ∈ sp1, isPySpace c = true)
    (hlk : lk ≠ []) (hlkd : ∀ c ∈ lk, isPyDigit c = true)
    (hsp2 : sp2 ≠ []) (hsp2s : ∀ c ∈ sp2, isPySpace c = true)
    (how : ow ≠ []) (hows : ∀ c ∈ ow, isNonSpace c = true)
    (hsp3 : sp3 ≠ []) (hsp3s : ∀ c ∈ sp3, isPySpace c = true)
    (hgr : gr ≠ []) (hgrs : ∀ c ∈ gr, isNonSpace c = true)
    (hsp4 : sp4 ≠ []) (hsp4s : ∀ c ∈ sp4, isPySpace c = true)
    (hsz : sz ≠ []) (hszd : ∀ c ∈ sz, isPyDigit c = true)
    (hsp5 : sp5 ≠ []) (hsp5s : ∀ c ∈ sp5, isPySpace c = true)
    (hy : y.length = 4) (hyd : ∀ c ∈ y, isPyDigit c = true)
    (hmo : mo.length = 2) (hmod : ∀ c ∈ mo, isPyDigit c = true)
    (hdd : dd.length = 2) (hddd : ∀ c ∈ dd, isPyDigit c = true)
    (hsp6 : sp6 ≠ []) (hsp6s : ∀ c ∈ sp6, isPySpace c = true)
    (hhh : hh.length = 2) (hhhd : ∀ c ∈ hh, isPyDigit c = true)
    (hmi : mi.length = 2) (hmid : ∀ c ∈ mi, isPyDigit c = true)
    (hsp7 : sp7 ≠ []) (hsp7s : ∀ c ∈ sp7, isPySpace c = true)
    (hnm : nm ≠ []) (hnmnl : ∀ c ∈ nm, ¬c = '\n')
    (hnmhead : ∀ c, nm.head? = some c → isPySpace c = false)
    (hnmlast : ∀ c, nm.getLast? = some c → isPySpace c = false)
    (hdots : ¬(nm = ['.'] ∨ nm = ['.', '.'])) :
    parseLsLine base (wfLine pc pcs sp1 lk sp2 ow sp3 gr sp4 sz sp5 y mo dd sp6 hh mi sp7 nm) =
      some { name := String.mk nm,
             path := rstripSlash base ++ "/" ++ String.mk nm,
             is_dir := decide (pc = 'd'),
             size := strToNat sz,
             permissions := String.mk (pc :: pcs),
             date_modified := String.mk (y ++ ['-'] ++ mo ++ ['-'] ++ dd) ++ " " ++
               String.mk (hh ++ [':'] ++ mi) } :=
  parseLsLine_wellformed base pc pcs sp1 lk sp2 ow sp3 gr sp4 sz sp5 y mo dd sp6 hh mi sp7 nm
    hperm hsp1 hsp1s hlk hlkd hsp2 hsp2s how hows hsp3 hsp3s hgr hgrs hsp4 hsp4s
    hsz hszd hsp5 hsp5s hy hyd hmo hmod hdd hddd hsp6 hsp6s hhh hhhd hmi hmid
    hsp7 hsp7s hnm hnmnl hnmhead hnmlast hdots

/-- Witness for C1: the claimed scenario line with base `/sdcard`. -/
theorem claim1_witness :
    parseLsLine ("/sdcard") (("-rw-r--r-- 1 root root 1024 2024-01-15 10:30 notes.txt").data) =
      some { name := "notes.txt", path := "/sdcard/notes.txt", is_dir := false,
             size := 1024, permissions := "-rw-r--r--",
             date_modified := "2024-01-15 10:30" } := by
  have h := claim1_wellformed_line_parses ("/sdcard") '-' (("rw-r--r--").data)
    [' '] (['1']) [' '] (("root").data) [' '] (("root").data) [' '] (("1024").data)
    [' '] (("2024").data) (("01").data) (("15").data) [' '] (("10").data) (("30").data)
    [' '] (("notes.txt").data)
    (by decide) (by decide) (by decide) (by decide) (by decide) (by decide) (by decide)
    (by decide) (by decide) (by decide) (by decide) (by decide) (by decide) (by decide)
    (by decide) (by decide) (by decide) (by decide) (by decide) (by decide) (by decide)
    (by decide) (by decide) (by decide) (by decide) (by decide) (by decide) (by decide)
    (by decide) (by decide) (by decide) (by decide) (by decide) (by decide)
    (by decide)
    (head_fail isPySpace (("notes.txt").data) 'n' (by decide) (by decide))
    (last_fail isPySpace (("notes.txt").data) 't' (by decide) (by decide))
    (by decide)
  have heq : ("-rw-r--r-- 1 root root 1024 2024-01-15 10:30 notes.txt").data =
      wfLine '-' (("rw-r--r--").data) [' '] (['1']) [' '] (("root").data) [' ']
        (("root").data) [' '] (("1024").data) [' '] (("2024").data) (("01").data)
        (("15").data) [' '] (("10").data) (("30").data) [' '] (("notes.txt").data) := by
    decide
  rw [heq]
  exact h.trans (by decide)

/-- Counterexample for C7: a directory line parses to an entry with
`is_dir = true` and the size taken from the line (4096), not 0. -/
theorem claim7_counterexample :
    (parseListing ("drwxr-xr-x 2 root root 4096 2024-01-15 10:30 Download") ("/sdcard")).map
      (fun i => (i.is_dir, i.size)) = [(true, 4096)] := by
  decide

/-- Claim C7 as amended: an entry produced from a well-formed directory
line (permissions beginning with `d`) has `is_dir = true` and its size
field equal to the numeric size captured from the line; the size is not
forced to 0 for directories. -/
theorem claim7_directory_size_from_line (base : String)
    (pcs sp1 lk sp2 ow sp3 gr sp4 sz sp5 y mo dd sp6 hh mi sp7 nm : List Char)
    (hperm : ∀ c ∈ 'd' :: pcs, isPermChar c = true)
    (hsp1 : sp1 ≠ []) (hsp1s : ∀ c ∈ sp1, isPySpace c = true)
    (hlk : lk ≠ []) (hlkd : ∀ c ∈ lk, isPyDigit c = true)
    (hsp2 : sp2 ≠ []) (hsp2s : ∀ c ∈ sp2, isPySpace c = true)
    (how : ow ≠ []) (hows : ∀ c ∈ ow, isNonSpace c = true)
    (hsp3 : sp3 ≠ []) (hsp3s : ∀ c ∈ sp3, isPySpace c = true)
    (hgr : gr ≠ []) (hgrs : ∀ c ∈ gr, isNonSpace c = true)
    (hsp4 : sp4 ≠ []) (hsp4s : ∀ c ∈ sp4, isPySpace c = true)
    (hsz : sz ≠ []) (hszd : ∀ c ∈ sz, isPyDigit c = true)
    (hsp5 : sp5 ≠ []) (hsp5s : ∀ c ∈ sp5, isPySpace c = true)
    (hy : y.length = 4) (hyd : ∀ c ∈ y, isPyDigit c = true)
    (hmo : mo.length = 2) (hmod : ∀ c ∈ mo, isPyDigit c = true)
    (hdd : dd.length = 2) (hddd : ∀ c ∈ dd, isPyDigit c = true)
    (hsp6 : sp6 ≠ []) (hsp6s : ∀ c ∈ sp6, isPySpace c = true)
    (hhh : hh.length = 2) (hhhd : ∀ c ∈ hh, isPyDigit c = true)
    (hmi : mi.length = 2) (hmid : ∀ c ∈ mi, isPyDigit c = true)
    (hsp7 : sp7 ≠ []) (hsp7s : ∀ c ∈ sp7, isPySpace c = true)
    (hnm : nm ≠ []) (hnmnl : ∀ c ∈ nm, ¬c = '\n')
    (hnmhead : ∀ c, nm.head? = some c → isPySpace c = false)
    (hnmlast : ∀ c, nm.getLast? = some c → isPySpace c = false)
    (hdots : ¬(nm = ['.'] ∨ nm = ['.', '.'])) :
    parseLsLine base (wfLine 'd' pcs sp1 lk sp2 ow sp3 gr sp4 sz sp5 y mo dd sp6 hh mi sp7 nm) =
      some { name := String.mk nm,
             path := rstripSlash base ++ "/" ++ String.mk nm,
             is_dir := true,
             size := strToNat sz,
             permissions := String.mk ('d' :: pcs),
             date_modified := String.mk (y ++ ['-'] ++ mo ++ ['-'] ++ dd) ++ " " ++
               String.mk (hh ++ [':'] ++ mi) } :=
  parseLsLine_wellformed base 'd' pcs sp1 lk sp2 ow sp3 gr sp4 sz sp5 y mo dd sp6 hh mi sp7 nm
    hperm hsp1 hsp1s hlk hlkd hsp2 hsp2s how hows hsp3 hsp3s hgr hgrs hsp4 hsp4s
    hsz hszd hsp5 hsp5s hy hyd hmo hmod hdd hddd hsp6 hsp6s hhh hhhd hmi hmid
    hsp7 hsp7s hnm hnmnl hnmhead hnmlast hdots

/-- Witness for C7: a concrete directory line whose entry keeps size 4096. -/
theorem claim7_witness :
    parseLsLine ("/sdcard") (("drwxr-xr-x 2 root root 4096 2024-01-15 10:30 Download").data) =
      some { name := "Download", path := "/sdcard/Download", is_dir := true,
             size := 4096, permissions := "drwxr-xr-x",
             date_modified := "2024-01-15 10:30" } := by
  have h := claim7_directory_size_from_line ("/sdcard") (("rwxr-xr-x").data)
    [' '] (['2']) [' '] (("root").data) [' '] (("root").data) [' '] (("4096").data)
    [' '] (("2024").data) (("01").data) (("15").data) [' '] (("10").data) (("30").data)
    [' '] (("Download").data)
    (by decide) (by decide) (by decide) (by decide) (by decide) (by decide) (by decide)
    (by decide) (by decide) (by decide) (by decide) (by decide) (by decide) (by decide)
    (by decide) (by decide) (by decide) (by decide) (by decide) (by decide) (by decide)
    (by decide) (by decide) (by decide) (by decide) (by decide) (by decide) (by decide)
    (by decide) (by decide) (by decide) (by decide) (by decide) (by decide)
    (by decide)
    (head_fail isPySpace (("Download").data) 'D' (by decide) (by decide))
    (last_fail isPySpace (("Download").data) 'd' (by decide) (by decide))
    (by decide)
  have heq : ("drwxr-xr-x 2 root root 4096 2024-01-15 10:30 Download").data =
      wfLine 'd' (("rwxr-xr-x").data) [' '] (['2']) [' '] (("root").data) [' ']
        (("root").data) [' '] (("4096").data) [' '] (("2024").data) (("01").data)
        (("15").data) [' '] (("10").data) (("30").data) [' '] (("Download").data) := by
    decide
  rw [heq]
  exact h.trans (by decide)
